import Mathlib

/-!
Shallow embedding of the edusync classroom-management API (Go, Gin + MySQL)
and proofs about its handlers.

Conventions of the embedding:
* each SQL table is a `List` of row structures inside a `DB` value;
* `archive_delete_flag` (TRUE = live row) is the field `active`;
* timestamps are integers; `time.Now().After(d)` is `d < now`;
* `QueryRow ... Scan` is `List.find?` (first matching row, `sql.ErrNoRows`
  when `none`); `SELECT EXISTS` is `List.any`; a multi-table join on the
  integer keys is a chain of `Option.bind` over `find?`;
* `UPDATE ... WHERE p` maps the row transformer over the rows satisfying
  `p`; `DELETE ... WHERE p` filters those rows out; rows-affected is the
  number of rows matching the WHERE clause;
* `AUTO_INCREMENT` ids are `nextId` (one more than the largest id present);
* a handler returns its HTTP outcome (status code plus the JSON message)
  together with the database after the request.

The repository contains several coexisting variants of the same handler
(different files register different implementations of one endpoint); each
variant that a claim cites is embedded separately and named accordingly.
-/

namespace EduSync

/-- HTTP-level outcome of a handler: the status code and the JSON
message/error string of the response body. -/
structure HResult where
  status : Nat
  message : String
deriving Repr, DecidableEq

/-- Row of the `user` table. `password` holds the stored bcrypt hash. -/
structure UserRow where
  userId : Nat
  name : String
  email : String
  password : String
  role : String
  active : Bool
deriving Repr, DecidableEq

/-- Row of the `teacher` table. -/
structure TeacherRow where
  teacherId : Nat
  userId : Nat
  active : Bool
deriving Repr, DecidableEq

/-- Row of the `student` table. -/
structure StudentRow where
  studentId : Nat
  userId : Nat
  active : Bool
deriving Repr, DecidableEq

/-- Row of the `classroom` table (fields the claims need). -/
structure ClassroomRow where
  courseId : Nat
  teacherId : Nat
  title : String
  active : Bool
deriving Repr, DecidableEq

/-- Row of the `enrollment` table. -/
structure EnrollmentRow where
  enrollmentId : Nat
  studentId : Nat
  courseId : Nat
  status : String
  active : Bool
deriving Repr, DecidableEq

/-- Row of the `assignment` table. -/
structure AssignmentRow where
  assignmentId : Nat
  courseId : Nat
  title : String
  description : String
  dueDate : Int
  maxPoints : Int
  active : Bool
deriving Repr, DecidableEq

/-- Row of the `submission` table. `score` and `feedback` are nullable
columns; there is no `is_late` column in the schema. -/
structure SubmissionRow where
  submissionId : Nat
  assignmentId : Nat
  studentId : Nat
  content : String
  submittedAt : Int
  score : Option Int
  feedback : Option String
  status : String
  active : Bool
deriving Repr, DecidableEq

/-- The relational store: one list per table of the edusync schema. -/
structure DB where
  users : List UserRow
  teachers : List TeacherRow
  students : List StudentRow
  classrooms : List ClassroomRow
  enrollments : List EnrollmentRow
  assignments : List AssignmentRow
  submissions : List SubmissionRow
deriving Repr, DecidableEq

/-- Next AUTO_INCREMENT value for a list of ids. -/
def nextId (ids : List Nat) : Nat := ids.foldr max 0 + 1

/-! ### Aggregation helpers (handlers/assignment.go, first variant) -/

/-- `calculatePercentage` from handlers/assignment.go: returns 0 when the
denominator is 0, otherwise `numerator * 100 / denominator` (the Go float
division is modelled exactly in `Rat`). -/
def calculatePercentage (numerator denominator : Int) : Rat :=
  if denominator = 0 then 0 else (numerator : Rat) * 100 / (denominator : Rat)

/-- `getClassSize` from handlers/assignment.go: the number of enrollment
rows for the course whose `status` is `enrolled`. -/
def getClassSize (db : DB) (classroomId : Nat) : Nat :=
  (db.enrollments.filter fun e => e.courseId == classroomId && e.status == "enrolled").length

/-- `submission_count` of the listing query in GetAssignmentsByClassroomHandler:
submissions of the assignment whose status is not `deleted`. -/
def submissionCountFor (db : DB) (assignmentId : Nat) : Nat :=
  (db.submissions.filter fun s =>
    s.assignmentId == assignmentId && s.status != "deleted").length

/-- `graded_count` of the listing query: non-deleted submissions of the
assignment with a non-null score. -/
def gradedCountFor (db : DB) (assignmentId : Nat) : Nat :=
  (db.submissions.filter fun s =>
    s.assignmentId == assignmentId && s.status != "deleted" && s.score.isSome).length

/-- One entry of the per-assignment listing built by
GetAssignmentsByClassroomHandler (derived statistics only). -/
structure AssignmentListEntry where
  assignmentId : Nat
  submissionCount : Nat
  gradedCount : Nat
  completionPercent : Rat
  gradedPercent : Rat
deriving Repr, DecidableEq

/-- The derived-statistics part of the map built for each assignment row in
GetAssignmentsByClassroomHandler (handlers/assignment.go, first variant). -/
def assignmentListEntry (db : DB) (a : AssignmentRow) (classroomId : Nat) :
    AssignmentListEntry :=
  let subCount := submissionCountFor db a.assignmentId
  let grCount := gradedCountFor db a.assignmentId
  { assignmentId := a.assignmentId
    submissionCount := subCount
    gradedCount := grCount
    completionPercent := calculatePercentage subCount (getClassSize db classroomId)
    gradedPercent := calculatePercentage grCount subCount }

/-! ### Login (auth.LoginHandler, src/unnamed/part_010) -/

/-- Result of a login request: a token/user payload on success, or the
error response. The bcrypt comparison is the parameter `verify`. -/
inductive LoginOutcome where
  | success (userId : Nat) (name email role : String)
  | failure (err : HResult)
deriving Repr, DecidableEq

/-- `LoginHandler` of src/unnamed/part_010: looks up the active user by
email (`WHERE email = ? AND archive_delete_flag = TRUE`); answers
401 "Invalid email or password" both when no row matches and when the
bcrypt comparison of the stored hash against the supplied password fails. -/
def loginHandler (verify : String → String → Bool) (db : DB)
    (email password : String) : LoginOutcome :=
  match db.users.find? (fun u => u.email == email && u.active) with
  | none => .failure ⟨401, "Invalid email or password"⟩
  | some u =>
    if verify u.password password then
      .success u.userId u.name u.email u.role
    else
      .failure ⟨401, "Invalid email or password"⟩

/-! ### Grading a single submission

Three registered variants: the bounds-checking one in handlers/classroom.go
(first GradeSubmissionHandler), the second classroom.go variant, and the one
in handlers/submission.go; only the first validates the score. -/

/-- The ownership join of the first GradeSubmissionHandler in
handlers/classroom.go: `SELECT a.assignment_id, a.max_points FROM submission
JOIN assignment JOIN classroom JOIN teacher WHERE s.submission_id = ? AND
t.user_id = ?` (no active-flag or deleted-status filters in this variant). -/
def findOwnedSubmission (db : DB) (submissionId teacherUserId : Nat) :
    Option (Nat × Int) :=
  (db.submissions.find? fun s => s.submissionId == submissionId).bind fun s =>
  (db.assignments.find? fun a => a.assignmentId == s.assignmentId).bind fun a =>
  (db.classrooms.find? fun c => c.courseId == a.courseId).bind fun c =>
  (db.teachers.find? fun t => t.teacherId == c.teacherId).bind fun t =>
  if t.userId == teacherUserId then some (a.assignmentId, a.maxPoints) else none

/-- First GradeSubmissionHandler of handlers/classroom.go: verifies
ownership, rejects `score < 0 || score > maxPoints` with 400 before any
write, otherwise sets score/feedback and status `graded` on the row. -/
def gradeSubmissionChecked (db : DB) (teacherUserId submissionId : Nat)
    (score : Int) (feedback : String) : HResult × DB :=
  match findOwnedSubmission db submissionId teacherUserId with
  | none => (⟨403, "You don't have permission to grade this submission"⟩, db)
  | some (_, maxPoints) =>
    if score < 0 || maxPoints < score then
      (⟨400, "Score must be between 0 and max points"⟩, db)
    else
      (⟨200, "Submission graded successfully"⟩,
        { db with submissions := db.submissions.map fun s =>
            if s.submissionId == submissionId then
              { s with score := some score, feedback := some feedback,
                       status := "graded" }
            else s })

/-- The ownership join of GradeSubmissionHandler in handlers/submission.go:
same chain but every table is filtered on `archive_delete_flag = TRUE`. -/
def findOwnedSubmissionActive (db : DB) (submissionId teacherUserId : Nat) :
    Option Nat :=
  (db.submissions.find? fun s => s.submissionId == submissionId && s.active).bind fun s =>
  (db.assignments.find? fun a => a.assignmentId == s.assignmentId && a.active).bind fun a =>
  (db.classrooms.find? fun c => c.courseId == a.courseId && c.active).bind fun c =>
  (db.teachers.find? fun t => t.teacherId == c.teacherId && t.active).bind fun t =>
  if t.userId == teacherUserId then some t.teacherId else none

/-- GradeSubmissionHandler of handlers/submission.go: checks the submission
exists, checks ownership, then writes score/feedback/status `graded` with
NO validation of the score against the assignment's max points. The Go
success response carries the graded fields, no message string. -/
def gradeSubmissionNoBounds (db : DB) (teacherUserId submissionId : Nat)
    (score : Int) (feedback : String) : HResult × DB :=
  if !(db.submissions.any fun s => s.submissionId == submissionId && s.active) then
    (⟨404, "Submission not found"⟩, db)
  else
    match findOwnedSubmissionActive db submissionId teacherUserId with
    | none => (⟨403, "Unauthorized to grade this submission"⟩, db)
    | some _ =>
      (⟨200, ""⟩,
        { db with submissions := db.submissions.map fun s =>
            if s.submissionId == submissionId && s.active then
              { s with score := some score, feedback := some feedback,
                       status := "graded" }
            else s })

/-! ### Creating a submission

The strict variant (handlers/submission.go CreateSubmissionHandler) gates on
the due date, enrollment and a prior submission; the lenient variant
(handlers/classroom.go first CreateSubmissionHandler) checks none of these. -/

/-- CreateSubmissionHandler of handlers/submission.go (strict variant). -/
def createSubmissionStrict (db : DB) (userId assignmentId : Nat)
    (content : String) (now : Int) : HResult × DB :=
  match db.students.find? (fun st => st.userId == userId && st.active) with
  | none => (⟨404, "Student not found"⟩, db)
  | some st =>
    match db.assignments.find? (fun a => a.assignmentId == assignmentId && a.active) with
    | none => (⟨404, "Assignment not found"⟩, db)
    | some a =>
      if a.dueDate < now then
        match db.submissions.find? (fun s =>
            s.assignmentId == assignmentId && s.studentId == st.studentId && s.active) with
        | some _ =>
          (⟨403, "Due date is over. You submitted on time, but you can no longer update your submission"⟩, db)
        | none =>
          (⟨403, "Due date is over. You cannot submit this assignment"⟩, db)
      else
        if !(db.enrollments.any fun e =>
            e.studentId == st.studentId && e.courseId == a.courseId && e.active) then
          (⟨403, "Student not enrolled in the course"⟩, db)
        else
          match db.submissions.find? (fun s =>
              s.assignmentId == assignmentId && s.studentId == st.studentId && s.active) with
          | some _ => (⟨400, "You have already submitted this assignment"⟩, db)
          | none =>
            (⟨200, "Submission created successfully"⟩,
              { db with submissions := db.submissions ++
                  [{ submissionId := nextId (db.submissions.map (·.submissionId))
                     assignmentId := assignmentId
                     studentId := st.studentId
                     content := content
                     submittedAt := now
                     score := none
                     feedback := none
                     status := "submitted"
                     active := true }] })

/-- First CreateSubmissionHandler of handlers/classroom.go (lenient
variant): looks up the student (`LIMIT 1`, no active filter) and the
assignment's due date, then inserts unconditionally — no enrollment check,
no due-date gate (the due date is only used for the `is_late` field of the
response) and no prior-submission check. -/
def createSubmissionLenient (db : DB) (userId assignmentId : Nat)
    (link : String) (now : Int) : HResult × DB :=
  match db.students.find? (fun st => st.userId == userId) with
  | none => (⟨403, "Access denied: User is not registered as a student"⟩, db)
  | some st =>
    match db.assignments.find? (fun a => a.assignmentId == assignmentId) with
    | none => (⟨404, "Assignment not found"⟩, db)
    | some _ =>
      (⟨201, "Submission created successfully"⟩,
        { db with submissions := db.submissions ++
            [{ submissionId := nextId (db.submissions.map (·.submissionId))
               assignmentId := assignmentId
               studentId := st.studentId
               content := link
               submittedAt := now
               score := none
               feedback := none
               status := "submitted"
               active := true }] })

/-! ### Bulk grading

Two registered variants in handlers/classroom.go: the first reports
per-item outcomes (`success_count`, `failed_ids`); the second runs the same
updates in a transaction but answers only a generic message. -/

/-- Response of a bulk-grade request. `successCount`/`failedIds` are `some`
exactly when the variant's JSON response carries those keys. -/
structure BulkGradeOutcome where
  status : Nat
  message : String
  successCount : Option Nat
  failedIds : Option (List Nat)
deriving Repr, DecidableEq

/-- Ownership query of BulkGradeSubmissionsHandler (first variant):
`SELECT a.max_points FROM assignment JOIN classroom JOIN teacher WHERE
a.assignment_id = ? AND t.user_id = ?`. -/
def findOwnedAssignmentMaxPoints (db : DB) (assignmentId teacherUserId : Nat) :
    Option Int :=
  (db.assignments.find? fun a => a.assignmentId == assignmentId).bind fun a =>
  (db.classrooms.find? fun c => c.courseId == a.courseId).bind fun c =>
  (db.teachers.find? fun t => t.teacherId == c.teacherId).bind fun t =>
  if t.userId == teacherUserId then some a.maxPoints else none

/-- WHERE clause of the per-item UPDATE of both bulk-grade variants:
`submission_id = ? AND assignment_id = ? AND status != 'deleted'`. -/
def bulkMatches (assignmentId submissionId : Nat) (s : SubmissionRow) : Bool :=
  s.submissionId == submissionId && s.assignmentId == assignmentId &&
    s.status != "deleted"

/-- The SET clause of the grading UPDATEs: score, feedback and status
`graded`. -/
def gradeRow (score : Int) (feedback : String) (s : SubmissionRow) :
    SubmissionRow :=
  { s with score := some score, feedback := some feedback, status := "graded" }

/-- One UPDATE of the bulk-grade loop: set score/feedback/status `graded`
on every row matching `bulkMatches`. -/
def bulkApplyOne (assignmentId submissionId : Nat) (score : Int)
    (feedback : String) (subs : List SubmissionRow) : List SubmissionRow :=
  subs.map fun s =>
    if bulkMatches assignmentId submissionId s then gradeRow score feedback s
    else s

/-- The loop of the first BulkGradeSubmissionsHandler: per listed id, run
the UPDATE; rows-affected positive counts a success, otherwise the id is
appended to `failed_ids`; the batch is never aborted. -/
def bulkGradeLoop (assignmentId : Nat) (score : Int) (feedback : String) :
    List Nat → List SubmissionRow → Nat → List Nat →
      Nat × List Nat × List SubmissionRow
  | [], subs, succ, failed => (succ, failed, subs)
  | sid :: rest, subs, succ, failed =>
    if subs.any (bulkMatches assignmentId sid) then
      bulkGradeLoop assignmentId score feedback rest
        (bulkApplyOne assignmentId sid score feedback subs) (succ + 1) failed
    else
      bulkGradeLoop assignmentId score feedback rest subs succ (failed ++ [sid])

/-- First BulkGradeSubmissionsHandler of handlers/classroom.go: empty id
list is 400, ownership is required, the one score is bounds-checked, then
the loop runs and the response reports `success_count` and `failed_ids`. -/
def bulkGradeReporting (db : DB) (teacherUserId assignmentId : Nat)
    (submissionIds : List Nat) (score : Int) (feedback : String) :
    BulkGradeOutcome × DB :=
  if submissionIds.isEmpty then
    (⟨400, "No submission IDs provided", none, none⟩, db)
  else
    match findOwnedAssignmentMaxPoints db assignmentId teacherUserId with
    | none =>
      (⟨403, "You don't have permission to grade submissions for this assignment", none, none⟩, db)
    | some maxPoints =>
      if score < 0 || maxPoints < score then
        (⟨400, "Score must be between 0 and max points", none, none⟩, db)
      else
        let r := bulkGradeLoop assignmentId score feedback submissionIds
          db.submissions 0 []
        (⟨200, "Bulk grading completed", some r.1, some r.2.1⟩,
          { db with submissions := r.2.2 })

/-- Second BulkGradeSubmissionsHandler of handlers/classroom.go: verifies
ownership via EXISTS (404 otherwise), applies the same UPDATE for every
listed id without bounds check or per-item bookkeeping, and answers only
"Bulk grading completed successfully" — no `success_count`, no
`failed_ids`. -/
def bulkGradePlain (db : DB) (teacherUserId assignmentId : Nat)
    (submissionIds : List Nat) (score : Int) (feedback : String) :
    BulkGradeOutcome × DB :=
  let owned := db.assignments.any fun a =>
    a.assignmentId == assignmentId &&
      (db.classrooms.any fun c => c.courseId == a.courseId &&
        (db.teachers.any fun t =>
          t.teacherId == c.teacherId && t.userId == teacherUserId))
  if !owned then
    (⟨404, "Assignment not found or access denied", none, none⟩, db)
  else
    (⟨200, "Bulk grading completed successfully", none, none⟩,
      { db with submissions := (submissionIds.foldl
          (fun acc sid => bulkApplyOne assignmentId sid score feedback acc)
          db.submissions) })

/-- The effect of the whole bulk-grade loop on a single row: the row is
graded once some listed id matches it. Used to reason about the loop's
final table row by row. -/
def rowFold (assignmentId : Nat) (score : Int) (feedback : String)
    (ids : List Nat) (s : SubmissionRow) : SubmissionRow :=
  ids.foldl
    (fun t sid => if bulkMatches assignmentId sid t then gradeRow score feedback t else t)
    s

/-! ### Deletion

DeleteClassroomHandler (handlers/classroom.go) issues a physical
`DELETE FROM classroom`; the second DeleteAssignmentHandler
(handlers/assignment.go) flips `archive_delete_flag` instead. -/

/-- DeleteClassroomHandler of handlers/classroom.go: resolves the caller's
teacher id, runs `DELETE FROM classroom WHERE course_id = ? AND
teacher_id = ?` and answers 404 when no row was affected. The matching row
is physically removed from storage. -/
def deleteClassroom (db : DB) (teacherUserId classroomId : Nat) :
    HResult × DB :=
  match db.teachers.find? (fun t => t.userId == teacherUserId) with
  | none => (⟨404, "Teacher not found"⟩, db)
  | some t =>
    let affected := (db.classrooms.filter fun c =>
      c.courseId == classroomId && c.teacherId == t.teacherId).length
    let db' := { db with classrooms := db.classrooms.filter fun c =>
      !(c.courseId == classroomId && c.teacherId == t.teacherId) }
    if affected == 0 then (⟨404, "Classroom not found or not authorized"⟩, db')
    else (⟨200, "Classroom deleted successfully"⟩, db')

/-- Second DeleteAssignmentHandler of handlers/assignment.go: resolves the
active teacher, verifies ownership through the active classroom, then runs
`UPDATE assignment SET archive_delete_flag = FALSE WHERE assignment_id = ?
AND archive_delete_flag = TRUE` — a soft delete that keeps the row. -/
def deleteAssignmentSoft (db : DB) (teacherUserId assignmentId : Nat) :
    HResult × DB :=
  match db.teachers.find? (fun t => t.userId == teacherUserId && t.active) with
  | none => (⟨500, "Teacher not found"⟩, db)
  | some t =>
    let owned := db.assignments.any fun a =>
      a.assignmentId == assignmentId && a.active &&
        (db.classrooms.any fun c =>
          c.courseId == a.courseId && c.teacherId == t.teacherId && c.active)
    if !owned then (⟨403, "Unauthorized to delete this assignment"⟩, db)
    else
      (⟨200, "Assignment deleted"⟩,
        { db with assignments := db.assignments.map fun a =>
            if a.assignmentId == assignmentId && a.active then
              { a with active := false }
            else a })

/-- The listing query of the second GetAssignmentsByClassroomHandler
(handlers/assignment.go): `SELECT ... FROM assignment WHERE course_id = ?
AND archive_delete_flag = TRUE`. -/
def listAssignmentsActive (db : DB) (classroomId : Nat) : List AssignmentRow :=
  db.assignments.filter fun a => a.courseId == classroomId && a.active

/-! ### Lateness at read time -/

/-- The `is_late` computation of GetSubmissionHandler in
handlers/classroom.go: re-fetch the assignment's due date on every read and
compare; the flag defaults to false when the due-date query fails. It is
never written to the submission table (the schema has no such column). -/
def computeIsLate (db : DB) (s : SubmissionRow) : Bool :=
  match db.assignments.find? (fun a => a.assignmentId == s.assignmentId) with
  | some a => a.dueDate < s.submittedAt
  | none => false

/-! ### Enrollment (strict variant, src/unnamed/part_005) -/

/-- The LEFT JOIN of the strict EnrollStudentHandler: the classroom's
teacher's user name, with the SQL NULL string scanning to `""` when either
joined row is missing. -/
def teacherNameOf (db : DB) (c : ClassroomRow) : String :=
  match db.teachers.find? (fun t => t.teacherId == c.teacherId) with
  | none => ""
  | some t =>
    match db.users.find? (fun u => u.userId == t.userId) with
    | none => ""
    | some u => u.name

/-- ASCII lowercasing of one character (the folding `strings.EqualFold`
applies to ASCII letters). -/
def charLower (c : Char) : Char :=
  if 65 ≤ c.toNat ∧ c.toNat ≤ 90 then Char.ofNat (c.toNat + 32) else c

/-- `strings.TrimSpace` modelled on the character list: leading and
trailing spaces removed. -/
def trimSpaces (s : String) : List Char :=
  ((s.data.dropWhile (fun c => c == ' ')).reverse.dropWhile
    (fun c => c == ' ')).reverse

/-- `strings.EqualFold` on the two `strings.TrimSpace`d names:
case-insensitive equality of the trimmed character lists. -/
def teacherNameMatches (provided actual : String) : Bool :=
  (trimSpaces provided).map charLower == (trimSpaces actual).map charLower

/-- EnrollStudentHandler of src/unnamed/part_005 (strict variant): after
the payload validations it resolves the active student, answers 404 when
the active classroom is absent, 400 when the supplied teacher name does not
match the classroom's teacher case-insensitively, 400 again when an active
enrollment for the (student, course) pair already exists, and otherwise
inserts a new active enrollment with status `active`. -/
def enrollStudentStrict (db : DB) (userId classroomId : Nat)
    (teacherName : String) : HResult × DB :=
  if classroomId == 0 then
    (⟨400, "Valid course ID is required"⟩, db)
  else if teacherName == "" then
    (⟨400, "Teacher name is required"⟩, db)
  else
    match db.students.find? (fun st => st.userId == userId && st.active) with
    | none => (⟨500, "Student not found"⟩, db)
    | some st =>
      match db.classrooms.find? (fun c => c.courseId == classroomId && c.active) with
      | none => (⟨404, "No classroom exists"⟩, db)
      | some c =>
        if !(teacherNameMatches teacherName (teacherNameOf db c)) then
          (⟨400, "Teacher does not match the course"⟩, db)
        else if db.enrollments.any (fun e =>
            e.studentId == st.studentId && e.courseId == classroomId && e.active) then
          (⟨400, "Student already enrolled in this classroom"⟩, db)
        else
          (⟨200, "Successfully enrolled in the course"⟩,
            { db with enrollments := db.enrollments ++
                [{ enrollmentId := nextId (db.enrollments.map (·.enrollmentId))
                   studentId := st.studentId
                   courseId := classroomId
                   status := "active"
                   active := true }] })

/-! ### Updating an assignment

Two registered variants in handlers/assignment.go: the first builds a
dynamic query from the non-empty payload fields; the second overwrites all
four columns unconditionally. -/

/-- The decoded update payload. Go's zero values stand for an absent field:
`""` for the strings, `0` for the parsed due date (zero `time.Time`), and
`maxPoints ≤ 0` for the points. -/
structure UpdateAssignmentRequest where
  title : String
  description : String
  due : Int
  maxPoints : Int
deriving Repr, DecidableEq

/-- Whether the dynamic query of the first UpdateAssignmentHandler gets at
least one SET clause. -/
def hasUpdatableField (req : UpdateAssignmentRequest) : Bool :=
  req.title != "" || req.description != "" || req.due != 0 || 0 < req.maxPoints

/-- The partial-field merge of the first UpdateAssignmentHandler: exactly
the present fields are overwritten, the rest keep their prior values. -/
def applyAssignmentUpdate (req : UpdateAssignmentRequest) (a : AssignmentRow) :
    AssignmentRow :=
  { a with
    title := if req.title != "" then req.title else a.title
    description := if req.description != "" then req.description else a.description
    dueDate := if req.due != 0 then req.due else a.dueDate
    maxPoints := if 0 < req.maxPoints then req.maxPoints else a.maxPoints }

/-- Ownership join of the first UpdateAssignmentHandler (no active-flag
filters): assignment, its classroom, its teacher, `t.user_id = ?`. -/
def ownsAssignment (db : DB) (assignmentId teacherUserId : Nat) : Bool :=
  (((db.assignments.find? fun a => a.assignmentId == assignmentId).bind fun a =>
    (db.classrooms.find? fun c => c.courseId == a.courseId).bind fun c =>
    (db.teachers.find? fun t => t.teacherId == c.teacherId).bind fun t =>
    if t.userId == teacherUserId then some c.courseId else none)).isSome

/-- First UpdateAssignmentHandler of handlers/assignment.go: 403 without
ownership, 400 "No update fields provided" when every payload field is
absent, otherwise `UPDATE assignment SET <present fields> WHERE
assignment_id = ?`. -/
def updateAssignmentMerge (db : DB) (teacherUserId assignmentId : Nat)
    (req : UpdateAssignmentRequest) : HResult × DB :=
  if !(ownsAssignment db assignmentId teacherUserId) then
    (⟨403, "You don't have permission to update this assignment"⟩, db)
  else if !(hasUpdatableField req) then
    (⟨400, "No update fields provided"⟩, db)
  else
    (⟨200, "Assignment updated successfully"⟩,
      { db with assignments := db.assignments.map fun a =>
          if a.assignmentId == assignmentId then applyAssignmentUpdate req a
          else a })

/-- Second UpdateAssignmentHandler of handlers/assignment.go: resolves the
active teacher, verifies ownership through the active classroom, then runs
`UPDATE assignment SET title = ?, description = ?, due_date = ?,
max_points = ? WHERE assignment_id = ? AND archive_delete_flag = TRUE` —
every column is overwritten with the payload value, zero values included. -/
def updateAssignmentOverwrite (db : DB) (userId assignmentId : Nat)
    (req : UpdateAssignmentRequest) : HResult × DB :=
  match db.teachers.find? (fun t => t.userId == userId && t.active) with
  | none => (⟨500, "Teacher not found"⟩, db)
  | some t =>
    let owned := db.assignments.any fun a =>
      a.assignmentId == assignmentId && a.active &&
        (db.classrooms.any fun c =>
          c.courseId == a.courseId && c.teacherId == t.teacherId && c.active)
    if !owned then (⟨403, "Unauthorized to update this assignment"⟩, db)
    else
      (⟨200, "Assignment updated"⟩,
        { db with assignments := db.assignments.map fun a =>
            if a.assignmentId == assignmentId && a.active then
              { a with title := req.title, description := req.description,
                       dueDate := req.due, maxPoints := req.maxPoints }
            else a })

/-! ### Concrete database states used by witnesses and counterexamples -/

/-- A populated store: teacher Alice (user 1) owns classroom 1 with
assignment 1 (due 100, max 100 points); student Bob (user 2, student 7) is
enrolled and has submission 10 (on time, at 50); student Carol (user 3,
student 8) is not enrolled and has submission 11 (late, at 120). -/
def exDb : DB :=
  { users :=
      [ { userId := 1, name := "Alice", email := "alice@x.com",
          password := "HASH1", role := "teacher", active := true }
      , { userId := 2, name := "Bob", email := "bob@x.com",
          password := "HASH2", role := "student", active := true }
      , { userId := 3, name := "Carol", email := "carol@x.com",
          password := "HASH3", role := "student", active := true } ]
    teachers := [ { teacherId := 1, userId := 1, active := true } ]
    students :=
      [ { studentId := 7, userId := 2, active := true }
      , { studentId := 8, userId := 3, active := true } ]
    classrooms :=
      [ { courseId := 1, teacherId := 1, title := "Algebra I", active := true } ]
    enrollments :=
      [ { enrollmentId := 1, studentId := 7, courseId := 1,
          status := "active", active := true } ]
    assignments :=
      [ { assignmentId := 1, courseId := 1, title := "HW1",
          description := "chapter one", dueDate := 100, maxPoints := 100,
          active := true } ]
    submissions :=
      [ { submissionId := 10, assignmentId := 1, studentId := 7,
          content := "link10", submittedAt := 50, score := none,
          feedback := none, status := "submitted", active := true }
      , { submissionId := 11, assignmentId := 1, studentId := 8,
          content := "link11", submittedAt := 120, score := none,
          feedback := none, status := "submitted", active := true } ] }

/-- Classroom 1 of `exDb`. -/
def exClassroom1 : ClassroomRow :=
  { courseId := 1, teacherId := 1, title := "Algebra I", active := true }

/-- Student row of Carol in `exDb` (user 3, student 8, unenrolled). -/
def exStudent8 : StudentRow :=
  { studentId := 8, userId := 3, active := true }

/-- Submission 10 of `exDb` (student 7, assignment 1, submitted at 50). -/
def exSub10 : SubmissionRow :=
  { submissionId := 10, assignmentId := 1, studentId := 7, content := "link10",
    submittedAt := 50, score := none, feedback := none, status := "submitted",
    active := true }

/-- Store for the strict-create claims: enrolled student Bob (user 2,
student 7) has no submission yet for assignment 1 (due 100). -/
def dbStrict : DB :=
  { exDb with submissions := [] }

/-- Store for the lenient-create claim: student Bob (user 2, student 7) is
enrolled in no course at all, yet already has submission 10 for
assignment 1. -/
def dbLenient : DB :=
  { exDb with enrollments := [] }

/-! ## Theorems -/

/-- Claim C6: for every login request, the error returned when no active
user exists for the supplied email is identical to the error returned when
the user exists but the password does not match the stored hash — the
response does not reveal which of the two checks failed, for any hash
verifier, any two stores and any two requests exercising the two paths. -/
theorem login_error_indistinguishable (verify : String → String → Bool)
    (db₁ db₂ : DB) (e₁ p₁ e₂ p₂ : String) (u : UserRow)
    (h₁ : db₁.users.find? (fun v => v.email == e₁ && v.active) = none)
    (h₂ : db₂.users.find? (fun v => v.email == e₂ && v.active) = some u)
    (h₃ : verify u.password p₂ = false) :
    loginHandler verify db₁ e₁ p₁ = loginHandler verify db₂ e₂ p₂ ∧
      loginHandler verify db₁ e₁ p₁ =
        .failure ⟨401, "Invalid email or password"⟩ := by
  simp [loginHandler, h₁, h₂, h₃]

/-- Witness for C6: a concrete unknown-email run and a concrete
wrong-password run produce the same response. -/
theorem login_error_indistinguishable_witness :
    loginHandler (fun h p => h == p) exDb "nobody@x.com" "pw" =
        loginHandler (fun h p => h == p) exDb "alice@x.com" "wrong" ∧
      loginHandler (fun h p => h == p) exDb "nobody@x.com" "pw" =
        .failure ⟨401, "Invalid email or password"⟩ :=
  login_error_indistinguishable (fun h p => h == p) exDb exDb
    "nobody@x.com" "pw" "alice@x.com" "wrong"
    { userId := 1, name := "Alice", email := "alice@x.com",
      password := "HASH1", role := "teacher", active := true }
    (by decide) (by decide) (by decide)

/-- Claim C7: the lenient submission-create variant lets an unenrolled
student submit after the due date even though a prior submission for the
same (assignment, student) pair exists — the request succeeds (201), a row
is inserted, and two non-deleted submissions for the pair then coexist.
Concretely: in `dbLenient` student 7 is enrolled nowhere, already has
submission 10 for assignment 1, and the request arrives at time 200, after
the due date 100. -/
theorem lenient_create_skips_checks :
    dbLenient.enrollments = [] ∧
      (dbLenient.submissions.filter (fun s =>
        s.assignmentId == 1 && s.studentId == 7 && s.status != "deleted")).length = 1 ∧
      (createSubmissionLenient dbLenient 2 1 "link-new" 200).1.status = 201 ∧
      ((createSubmissionLenient dbLenient 2 1 "link-new" 200).2.submissions.filter
        (fun s =>
          s.assignmentId == 1 && s.studentId == 7 && s.status != "deleted")).length = 2 := by
  decide

/-- Claim C10: the derived per-assignment statistics divide only behind a
zero guard: completion percent is submissions over class size times 100 and
graded percent is graded over submissions times 100, each exactly 0 when
its denominator is 0. -/
theorem assignment_stats_guarded_division (db : DB) (a : AssignmentRow)
    (classroomId : Nat) :
    (assignmentListEntry db a classroomId).completionPercent =
      (if getClassSize db classroomId = 0 then 0
       else (submissionCountFor db a.assignmentId : Rat) /
         (getClassSize db classroomId : Rat) * 100) ∧
    (assignmentListEntry db a classroomId).gradedPercent =
      (if submissionCountFor db a.assignmentId = 0 then 0
       else (gradedCountFor db a.assignmentId : Rat) /
         (submissionCountFor db a.assignmentId : Rat) * 100) := by
  constructor <;>
    · simp only [assignmentListEntry, calculatePercentage, Int.natCast_eq_zero]
      split
      · rfl
      · push_cast
        rw [mul_div_right_comm]

/-- Counterexample for C1: the GradeSubmissionHandler variant of
handlers/submission.go accepts a negative score from the owning teacher —
the request succeeds with 200 and the submission row ends with score -5
and status `graded` instead of failing with a 400 validation error. -/
theorem grade_no_bounds_accepts_negative_score :
    (gradeSubmissionNoBounds exDb 1 10 (-5) "bad").1.status = 200 ∧
      ∃ s ∈ (gradeSubmissionNoBounds exDb 1 10 (-5) "bad").2.submissions,
        s.submissionId = 10 ∧ s.score = some (-5) ∧ s.status = "graded" := by
  decide

/-- Claim C1 (amended): in the bounds-checking grading variant (the first
GradeSubmissionHandler of handlers/classroom.go), a request by the owning
teacher with a score below 0 or above the assignment's max points fails
with 400 leaving the store unchanged, while a score of exactly 0 or exactly
max points succeeds and sets score, feedback and status `graded`; the other
two registered grading variants perform no bounds validation. -/
theorem grade_checked_variant_bounds (db : DB) (tuid sid : Nat) (score : Int)
    (fb : String) (aid : Nat) (maxPts : Int)
    (hown : findOwnedSubmission db sid tuid = some (aid, maxPts))
    (hmax : 0 ≤ maxPts) :
    ((score < 0 ∨ maxPts < score) →
      (gradeSubmissionChecked db tuid sid score fb).1.status = 400 ∧
        (gradeSubmissionChecked db tuid sid score fb).2 = db) ∧
    ((score = 0 ∨ score = maxPts) →
      (gradeSubmissionChecked db tuid sid score fb).1.status = 200 ∧
        ∀ s ∈ (gradeSubmissionChecked db tuid sid score fb).2.submissions,
          s.submissionId = sid →
            s.score = some score ∧ s.feedback = some fb ∧ s.status = "graded") := by
  unfold gradeSubmissionChecked
  rw [hown]
  constructor
  · intro hbad
    have hcond : (score < 0 || maxPts < score) = true := by
      rcases hbad with h | h <;> simp [h]
    simp [hcond]
  · intro hok
    have hcond : (score < 0 || maxPts < score) = false := by
      simp only [Bool.or_eq_false_iff, decide_eq_false_iff_not, not_lt]
      rcases hok with h | h <;> omega
    simp only [hcond, Bool.false_eq_true, if_false]
    refine ⟨by trivial, ?_⟩
    intro s hs hsid
    rw [List.mem_map] at hs
    obtain ⟨t, _, rfl⟩ := hs
    by_cases hteq : t.submissionId == sid
    · simp [hteq]
    · rw [if_neg (by simp [hteq])] at hsid ⊢
      exact absurd hsid (by simpa using hteq)

/-- Witness for C1: in `exDb` teacher 1 owns submission 10 of assignment 1
(max 100 points); grading with score 0 succeeds and score -5 is rejected. -/
theorem grade_checked_variant_bounds_witness :
    (gradeSubmissionChecked exDb 1 10 0 "Good").1.status = 200 ∧
      (gradeSubmissionChecked exDb 1 10 (-5) "bad").1.status = 400 :=
  ⟨((grade_checked_variant_bounds exDb 1 10 0 "Good" 1 100 (by decide)
      (by decide)).2 (Or.inl rfl)).1,
   ((grade_checked_variant_bounds exDb 1 10 (-5) "bad" 1 100 (by decide)
      (by decide)).1 (Or.inl (by decide))).1⟩

/-- Counterexample for C3: DeleteClassroomHandler physically removes the
classroom row — after the owning teacher deletes classroom 1 the request
succeeds and the row is gone from storage, refuting that deletion only
flips the active flag and never physically removes rows. -/
theorem delete_classroom_physically_removes_row :
    exDb.classrooms.length = 1 ∧
      (deleteClassroom exDb 1 1).1.status = 200 ∧
      (deleteClassroom exDb 1 1).2.classrooms = [] := by
  decide

/-- Claim C3 (amended): the flag-based DeleteAssignmentHandler of
handlers/assignment.go soft-deletes — the request by the owning teacher
succeeds, the assignment row stays in storage with its active flag turned
off, every other row is untouched, and the subsequent assignment listing
for any classroom no longer returns it; the DeleteClassroomHandler of
handlers/classroom.go, in contrast, removes the classroom row physically
with a SQL DELETE. -/
theorem delete_assignment_soft_keeps_row (db : DB) (tuid aid : Nat)
    (t : TeacherRow)
    (ht : db.teachers.find? (fun x => x.userId == tuid && x.active) = some t)
    (hown : (db.assignments.any fun a =>
      a.assignmentId == aid && a.active &&
        (db.classrooms.any fun c =>
          c.courseId == a.courseId && c.teacherId == t.teacherId && c.active)) = true) :
    (deleteAssignmentSoft db tuid aid).1.status = 200 ∧
      (deleteAssignmentSoft db tuid aid).2.assignments.length =
        db.assignments.length ∧
      (∀ a ∈ (deleteAssignmentSoft db tuid aid).2.assignments,
        a.assignmentId = aid → a.active = false) ∧
      (∀ a ∈ db.assignments, a.assignmentId ≠ aid →
        a ∈ (deleteAssignmentSoft db tuid aid).2.assignments) ∧
      (deleteAssignmentSoft db tuid aid).2.classrooms = db.classrooms ∧
      (deleteAssignmentSoft db tuid aid).2.submissions = db.submissions ∧
      ∀ cid, ∀ a ∈ listAssignmentsActive (deleteAssignmentSoft db tuid aid).2 cid,
        a.assignmentId ≠ aid := by
  unfold deleteAssignmentSoft
  rw [ht]
  simp only [hown, Bool.not_true, Bool.false_eq_true, if_false]
  refine ⟨by trivial, List.length_map .., ?_, ?_, by trivial, by trivial, ?_⟩
  · intro a ha haid
    rw [List.mem_map] at ha
    obtain ⟨b, _, rfl⟩ := ha
    by_cases hb : b.assignmentId == aid && b.active
    · simp [hb]
    · rw [if_neg (by simp [hb])] at haid ⊢
      rw [Bool.and_eq_true] at hb
      push_neg at hb
      have := hb (by simpa using haid)
      simpa using this
  · intro a ha haid
    have : (if a.assignmentId == aid && a.active then { a with active := false }
        else a) = a := by
      rw [if_neg]
      simp [haid]
    rw [← this]
    exact List.mem_map_of_mem _ ha
  · intro cid a ha haid
    unfold listAssignmentsActive at ha
    rw [List.mem_filter] at ha
    obtain ⟨hmem, hcond⟩ := ha
    rw [List.mem_map] at hmem
    obtain ⟨b, _, rfl⟩ := hmem
    by_cases hb : b.assignmentId == aid && b.active
    · rw [if_pos hb] at hcond
      simp at hcond
    · rw [if_neg (by simp [hb])] at haid hcond
      rw [Bool.and_eq_true] at hb
      push_neg at hb
      rw [Bool.and_eq_true] at hcond
      exact absurd hcond.2 (by simpa using hb (by simpa using haid))

/-- Witness for C3: in `exDb` teacher 1 soft-deletes assignment 1; the row
count is preserved, the row is inactive, and the listing for classroom 1
excludes it. -/
theorem delete_assignment_soft_keeps_row_witness :
    (deleteAssignmentSoft exDb 1 1).1.status = 200 ∧
      (deleteAssignmentSoft exDb 1 1).2.assignments.length = 1 ∧
      ∀ a ∈ listAssignmentsActive (deleteAssignmentSoft exDb 1 1).2 1,
        a.assignmentId ≠ 1 := by
  have h := delete_assignment_soft_keeps_row exDb 1 1
    { teacherId := 1, userId := 1, active := true } (by decide) (by decide)
  exact ⟨h.1, h.2.1, h.2.2.2.2.2.2 1⟩

/-- Claim C4: the strict CreateSubmissionHandler accepts a student's
request only while now is not after the assignment's due date — any request
after the due date gets a 403 Forbidden and the store is unchanged (so an
existing on-time submission is untouched and no row is inserted), while an
on-time request by an enrolled student without a prior active submission
inserts a new row with status `submitted`. -/
theorem strict_create_due_date_gate (db : DB) (uid aid : Nat)
    (content : String) (now : Int) (st : StudentRow) (a : AssignmentRow)
    (hst : db.students.find? (fun x => x.userId == uid && x.active) = some st)
    (ha : db.assignments.find? (fun x => x.assignmentId == aid && x.active) = some a) :
    (a.dueDate < now →
      (createSubmissionStrict db uid aid content now).1.status = 403 ∧
        (createSubmissionStrict db uid aid content now).2 = db) ∧
    (now ≤ a.dueDate →
      (db.enrollments.any fun e =>
        e.studentId == st.studentId && e.courseId == a.courseId && e.active) = true →
      db.submissions.find? (fun s =>
        s.assignmentId == aid && s.studentId == st.studentId && s.active) = none →
      (createSubmissionStrict db uid aid content now).1.status = 200 ∧
        (createSubmissionStrict db uid aid content now).2.submissions =
          db.submissions ++
            [{ submissionId := nextId (db.submissions.map (·.submissionId))
               assignmentId := aid
               studentId := st.studentId
               content := content
               submittedAt := now
               score := none
               feedback := none
               status := "submitted"
               active := true }]) := by
  constructor
  · intro hlate
    simp only [createSubmissionStrict, hst, ha]
    rw [if_pos hlate]
    cases db.submissions.find? (fun s =>
        s.assignmentId == aid && s.studentId == st.studentId && s.active) <;>
      exact ⟨rfl, rfl⟩
  · intro hontime henr hnone
    simp only [createSubmissionStrict, hst, ha]
    rw [if_neg (not_lt.mpr hontime)]
    simp [henr, hnone]

/-- Witness for C4: in `dbStrict` (enrolled student 7, no prior submission,
due date 100) the request at time 50 succeeds with a `submitted` row and
the request at time 200 is rejected with 403. -/
theorem strict_create_due_date_gate_witness :
    (createSubmissionStrict dbStrict 2 1 "work" 50).1.status = 200 ∧
      (createSubmissionStrict dbStrict 2 1 "work" 200).1.status = 403 ∧
      (createSubmissionStrict dbStrict 2 1 "work" 200).2 = dbStrict := by
  have h := strict_create_due_date_gate dbStrict 2 1 "work" 50
    { studentId := 7, userId := 2, active := true }
    { assignmentId := 1, courseId := 1, title := "HW1",
      description := "chapter one", dueDate := 100, maxPoints := 100,
      active := true } (by decide) (by decide)
  have h' := strict_create_due_date_gate dbStrict 2 1 "work" 200
    { studentId := 7, userId := 2, active := true }
    { assignmentId := 1, courseId := 1, title := "HW1",
      description := "chapter one", dueDate := 100, maxPoints := 100,
      active := true } (by decide) (by decide)
  exact ⟨(h.2 (by decide) (by decide) (by decide)).1,
    (h'.1 (by decide)).1, (h'.1 (by decide)).2⟩

/-- `find?` commutes with a `map` whose function preserves the predicate. -/
theorem find?_map_eq {α β : Type} (f : α → β) (p : β → Bool) (q : α → Bool)
    (h : ∀ a, p (f a) = q a) (l : List α) :
    (l.map f).find? p = (l.find? q).map f := by
  induction l with
  | nil => rfl
  | cons x xs ih =>
    by_cases hx : q x
    · rw [List.map_cons, List.find?_cons_of_pos _ (by rw [h x]; exact hx),
        List.find?_cons_of_pos _ hx, Option.map_some']
    · rw [List.map_cons,
        List.find?_cons_of_neg _ (by rw [h x]; simpa using hx),
        List.find?_cons_of_neg _ (by simpa using hx), ih]

/-- Claim C5: lateness is never stored — a read recomputes `is_late` as
submitted-at strictly after the assignment's current due date, so updating
the assignment's due date changes the lateness reported on the next read
while leaving every submission row unmutated. -/
theorem lateness_derived_on_read (db : DB) (tuid aid : Nat) (newDue : Int)
    (hdue : newDue ≠ 0) (hown : ownsAssignment db aid tuid = true) :
    (updateAssignmentMerge db tuid aid ⟨"", "", newDue, 0⟩).2.submissions =
        db.submissions ∧
      ∀ s ∈ db.submissions, s.assignmentId = aid →
        computeIsLate (updateAssignmentMerge db tuid aid ⟨"", "", newDue, 0⟩).2 s =
          decide (newDue < s.submittedAt) := by
  have hfield : hasUpdatableField ⟨"", "", newDue, 0⟩ = true := by
    simp [hasUpdatableField, hdue]
  have heq : (updateAssignmentMerge db tuid aid ⟨"", "", newDue, 0⟩).2 =
      { db with assignments := db.assignments.map fun a =>
          if a.assignmentId == aid then
            applyAssignmentUpdate ⟨"", "", newDue, 0⟩ a
          else a } := by
    simp [updateAssignmentMerge, hown, hfield]
  obtain ⟨a₀, ha₀⟩ : ∃ a₀,
      db.assignments.find? (fun a => a.assignmentId == aid) = some a₀ := by
    unfold ownsAssignment at hown
    cases hfind : db.assignments.find? (fun a => a.assignmentId == aid) with
    | none => rw [hfind] at hown; simp at hown
    | some x => exact ⟨x, rfl⟩
  have ha₀id : (a₀.assignmentId == aid) = true := by
    have hp := List.find?_some ha₀
    simpa using hp
  refine ⟨by rw [heq], ?_⟩
  intro s _ hsid
  rw [heq]
  unfold computeIsLate
  rw [hsid]
  rw [show ({ db with assignments := db.assignments.map fun a =>
      if a.assignmentId == aid then applyAssignmentUpdate ⟨"", "", newDue, 0⟩ a
      else a } : DB).assignments = db.assignments.map fun a =>
      if a.assignmentId == aid then applyAssignmentUpdate ⟨"", "", newDue, 0⟩ a
      else a from rfl]
  rw [find?_map_eq _ _ (fun a => a.assignmentId == aid) ?_ db.assignments]
  · rw [ha₀, Option.map_some', if_pos ha₀id]
    simp [applyAssignmentUpdate, hdue]
  · intro a
    by_cases hc : (a.assignmentId == aid) = true
    · rw [if_pos hc]
      exact rfl
    · rw [if_neg (by simpa using hc)]

/-- Witness for C5: submission 10 (submitted at 50) is on time against due
date 100; after the owning teacher moves the due date to 40 the same read
reports it late, and the submission rows are untouched. -/
theorem lateness_derived_on_read_witness :
    computeIsLate exDb exSub10 = false ∧
      (updateAssignmentMerge exDb 1 1 ⟨"", "", 40, 0⟩).2.submissions =
        exDb.submissions ∧
      computeIsLate (updateAssignmentMerge exDb 1 1 ⟨"", "", 40, 0⟩).2 exSub10 = true := by
  have h := lateness_derived_on_read exDb 1 1 40 (by decide) (by decide)
  refine ⟨by decide, h.1, ?_⟩
  rw [h.2 exSub10 (by decide) rfl]
  decide

/-- Counterexample for C8: when the student is already actively enrolled,
the strict EnrollStudentHandler answers 400 "Student already enrolled in
this classroom" — not a 409 Conflict as claimed. -/
theorem enroll_duplicate_returns_400_not_conflict :
    (enrollStudentStrict exDb 2 1 "Alice").1.status = 400 ∧
      (enrollStudentStrict exDb 2 1 "Alice").1.message =
        "Student already enrolled in this classroom" ∧
      (enrollStudentStrict exDb 2 1 "Alice").1.status ≠ 409 := by
  decide

/-- Claim C8 (amended): strict enrollment creation by a student fails with
a 400 validation error when the supplied teacher name does not
case-insensitively match the classroom's teacher's name, with 404 when the
classroom is absent, and with a 400 validation error — the code uses 400,
not 409 Conflict — when an active enrollment for the (student, course) pair
already exists; otherwise it inserts a new active enrollment, and the
store (in particular the classroom table) is unchanged on every failure. -/
theorem enroll_strict_outcomes (db : DB) (uid cid : Nat) (tname : String)
    (st : StudentRow) (hcid : cid ≠ 0) (hname : tname ≠ "")
    (hst : db.students.find? (fun x => x.userId == uid && x.active) = some st) :
    (db.classrooms.find? (fun c => c.courseId == cid && c.active) = none →
      (enrollStudentStrict db uid cid tname).1.status = 404 ∧
        (enrollStudentStrict db uid cid tname).2 = db) ∧
    ∀ c, db.classrooms.find? (fun x => x.courseId == cid && x.active) = some c →
      (teacherNameMatches tname (teacherNameOf db c) = false →
        (enrollStudentStrict db uid cid tname).1.status = 400 ∧
          (enrollStudentStrict db uid cid tname).2 = db) ∧
      (teacherNameMatches tname (teacherNameOf db c) = true →
        ((db.enrollments.any fun e =>
            e.studentId == st.studentId && e.courseId == cid && e.active) = true →
          (enrollStudentStrict db uid cid tname).1.status = 400 ∧
            (enrollStudentStrict db uid cid tname).2 = db) ∧
        ((db.enrollments.any fun e =>
            e.studentId == st.studentId && e.courseId == cid && e.active) = false →
          (enrollStudentStrict db uid cid tname).1.status = 200 ∧
            (enrollStudentStrict db uid cid tname).2.enrollments =
              db.enrollments ++
                [{ enrollmentId := nextId (db.enrollments.map (·.enrollmentId))
                   studentId := st.studentId
                   courseId := cid
                   status := "active"
                   active := true }] ∧
            (enrollStudentStrict db uid cid tname).2.classrooms =
              db.classrooms)) := by
  have hc0 : (cid == 0) = false := by simpa using hcid
  have hn0 : (tname == "") = false := by simpa using hname
  constructor
  · intro habsent
    simp [enrollStudentStrict, hc0, hn0, hst, habsent]
  · intro c hc
    refine ⟨?_, ?_⟩
    · intro hmis
      simp [enrollStudentStrict, hc0, hn0, hst, hc, hmis]
    · intro hmatch
      refine ⟨?_, ?_⟩
      · intro hdup
        simp [enrollStudentStrict, hc0, hn0, hst, hc, hmatch, hdup]
      · intro hfree
        simp [enrollStudentStrict, hc0, hn0, hst, hc, hmatch, hfree]

/-- Witness for C8: student Carol (user 3) enrolls in classroom 1 supplying
the lowercase teacher name; the request succeeds and appends an active
enrollment. -/
theorem enroll_strict_outcomes_witness :
    (enrollStudentStrict exDb 3 1 "alice").1.status = 200 ∧
      (enrollStudentStrict exDb 3 1 "alice").2.enrollments.length = 2 := by
  have h := enroll_strict_outcomes exDb 3 1 "alice" exStudent8
    (by decide) (by decide) (by decide)
  have h2 := ((h.2 exClassroom1 (by decide)).2 (by decide)).2 (by decide)
  refine ⟨h2.1, ?_⟩
  rw [h2.2.1]
  decide

/-- Counterexample for C9: the second UpdateAssignmentHandler overwrites
every column unconditionally — a payload with no updatable field succeeds
with 200 (instead of failing validation) and clobbers the assignment's
title, description, due date and max points with Go zero values. -/
theorem update_overwrite_clobbers_fields :
    (updateAssignmentOverwrite exDb 1 1 ⟨"", "", 0, 0⟩).1.status = 200 ∧
      (updateAssignmentOverwrite exDb 1 1 ⟨"", "", 0, 0⟩).2.assignments =
        [{ assignmentId := 1, courseId := 1, title := "", description := "",
           dueDate := 0, maxPoints := 0, active := true }] := by
  decide

/-- Claim C9 (amended): the dynamic-query UpdateAssignmentHandler applies a
partial-field merge — exactly the payload fields that are present (title
and description non-empty, due date non-zero, max points positive) are
overwritten, absent fields keep their prior values, rows of other
assignments are untouched, and a payload with no updatable field fails with
400 and changes nothing; the other registered update variant instead
overwrites all four columns unconditionally. -/
theorem update_merge_partial_fields (db : DB) (tuid aid : Nat)
    (req : UpdateAssignmentRequest)
    (hown : ownsAssignment db aid tuid = true) :
    (hasUpdatableField req = false →
      (updateAssignmentMerge db tuid aid req).1.status = 400 ∧
        (updateAssignmentMerge db tuid aid req).2 = db) ∧
    (hasUpdatableField req = true →
      (updateAssignmentMerge db tuid aid req).1.status = 200 ∧
        ∀ a ∈ db.assignments,
          (a.assignmentId ≠ aid →
            a ∈ (updateAssignmentMerge db tuid aid req).2.assignments) ∧
          (a.assignmentId = aid →
            ∃ a' ∈ (updateAssignmentMerge db tuid aid req).2.assignments,
              a'.assignmentId = a.assignmentId ∧ a'.courseId = a.courseId ∧
              a'.active = a.active ∧
              a'.title = (if req.title = "" then a.title else req.title) ∧
              a'.description =
                (if req.description = "" then a.description else req.description) ∧
              a'.dueDate = (if req.due = 0 then a.dueDate else req.due) ∧
              a'.maxPoints =
                (if req.maxPoints ≤ 0 then a.maxPoints else req.maxPoints))) := by
  constructor
  · intro hnone
    simp [updateAssignmentMerge, hown, hnone]
  · intro hsome
    have hred : (updateAssignmentMerge db tuid aid req).2 =
        { db with assignments := db.assignments.map fun a =>
            if a.assignmentId == aid then applyAssignmentUpdate req a else a } := by
      simp [updateAssignmentMerge, hown, hsome]
    refine ⟨by simp [updateAssignmentMerge, hown, hsome], ?_⟩
    intro a ha
    constructor
    · intro hne
      rw [hred]
      have : (if a.assignmentId == aid then applyAssignmentUpdate req a else a) = a := by
        rw [if_neg (by simpa using hne)]
      rw [show ({ db with assignments := db.assignments.map fun a =>
          if a.assignmentId == aid then applyAssignmentUpdate req a else a } : DB).assignments
          = db.assignments.map fun a =>
            if a.assignmentId == aid then applyAssignmentUpdate req a else a from rfl]
      rw [← this]
      exact List.mem_map_of_mem _ ha
    · intro heq
      rw [hred]
      refine ⟨applyAssignmentUpdate req a, ?_, rfl, rfl, rfl, ?_, ?_, ?_, ?_⟩
      · rw [show ({ db with assignments := db.assignments.map fun a =>
            if a.assignmentId == aid then applyAssignmentUpdate req a else a } : DB).assignments
            = db.assignments.map fun a =>
              if a.assignmentId == aid then applyAssignmentUpdate req a else a from rfl]
        have : (if a.assignmentId == aid then applyAssignmentUpdate req a else a) =
            applyAssignmentUpdate req a := by
          rw [if_pos (by simpa using heq)]
        rw [← this]
        exact List.mem_map_of_mem _ ha
      · by_cases ht : req.title = "" <;>
          simp [applyAssignmentUpdate, ht]
      · by_cases hd : req.description = "" <;>
          simp [applyAssignmentUpdate, hd]
      · by_cases hu : req.due = 0 <;>
          simp [applyAssignmentUpdate, hu]
      · by_cases hm : req.maxPoints ≤ 0 <;>
          simp [applyAssignmentUpdate, hm, not_le, lt_iff_not_ge]

/-- Witness for C9: updating assignment 1 of `exDb` with only a new title
succeeds and leaves description, due date and max points at their prior
values. -/
theorem update_merge_partial_fields_witness :
    (updateAssignmentMerge exDb 1 1 ⟨"HW1-v2", "", 0, 0⟩).1.status = 200 ∧
      ∃ a' ∈ (updateAssignmentMerge exDb 1 1 ⟨"HW1-v2", "", 0, 0⟩).2.assignments,
        a'.title = "HW1-v2" ∧ a'.description = "chapter one" ∧
          a'.dueDate = 100 ∧ a'.maxPoints = 100 := by
  have h := update_merge_partial_fields exDb 1 1 ⟨"HW1-v2", "", 0, 0⟩ (by decide)
  have h2 := h.2 (by decide)
  refine ⟨h2.1, ?_⟩
  obtain ⟨a', ha', _, _, _, ht, hd, hu, hm⟩ :=
    ((h2.2 (exDb.assignments.head (by decide)) (by decide)).2 (by decide))
  exact ⟨a', ha', by simpa using ht, by simpa using hd, by simpa using hu,
    by simpa using hm⟩

/-- A bulk-grade UPDATE for one listed id does not change whether any other
listed id matches a row: ids are preserved and a graded status is still not
`deleted`. -/
theorem bulkMatches_after_apply (aid sid sid' : Nat) (score : Int)
    (fb : String) (s : SubmissionRow) :
    bulkMatches aid sid
        (if bulkMatches aid sid' s then gradeRow score fb s else s) =
      bulkMatches aid sid s := by
  by_cases h : bulkMatches aid sid' s = true
  · have hdel : (s.status != "deleted") = true := by
      have h' := h
      unfold bulkMatches at h'
      simp only [Bool.and_eq_true] at h'
      exact h'.2
    rw [if_pos h]
    show (s.submissionId == sid && s.assignmentId == aid &&
        (("graded" : String) != "deleted")) = bulkMatches aid sid s
    unfold bulkMatches
    rw [hdel, show (("graded" : String) != "deleted") = true from by decide]
  · rw [if_neg h]

/-- The bulk-grade UPDATE for one id preserves `any (bulkMatches aid sid)`
over the whole table. -/
theorem any_bulkApplyOne (aid sid sid' : Nat) (score : Int) (fb : String)
    (subs : List SubmissionRow) :
    (bulkApplyOne aid sid' score fb subs).any (bulkMatches aid sid) =
      subs.any (bulkMatches aid sid) := by
  unfold bulkApplyOne
  rw [List.any_map]
  congr 1
  funext s
  exact bulkMatches_after_apply aid sid sid' score fb s

/-- When no row matches a listed id, the UPDATE for that id is the
identity. -/
theorem bulkApplyOne_no_match (aid sid : Nat) (score : Int) (fb : String) :
    ∀ subs : List SubmissionRow, subs.any (bulkMatches aid sid) = false →
      bulkApplyOne aid sid score fb subs = subs := by
  intro subs
  induction subs with
  | nil => intro _; rfl
  | cons x xs ih =>
    intro h
    rw [List.any_cons, Bool.or_eq_false_iff] at h
    unfold bulkApplyOne
    rw [List.map_cons, if_neg (by simp [h.1])]
    have h2 := ih h.2
    unfold bulkApplyOne at h2
    rw [h2]

/-- Closed form of the first bulk-grade variant's loop: the success count
adds one per listed id matching a non-deleted submission of the assignment,
the unmatched ids are appended to the failure list in order, and the final
table is the fold of the per-id UPDATEs. -/
theorem bulkGradeLoop_spec (aid : Nat) (score : Int) (fb : String) :
    ∀ (ids : List Nat) (subs : List SubmissionRow) (succ : Nat)
      (failed : List Nat),
      bulkGradeLoop aid score fb ids subs succ failed =
        (succ + (ids.filter fun sid => subs.any (bulkMatches aid sid)).length,
         failed ++ ids.filter fun sid => !(subs.any (bulkMatches aid sid)),
         ids.foldl (fun acc sid => bulkApplyOne aid sid score fb acc) subs) := by
  intro ids
  induction ids with
  | nil => intro subs succ failed; simp [bulkGradeLoop]
  | cons sid rest ih =>
    intro subs succ failed
    have hunf : bulkGradeLoop aid score fb (sid :: rest) subs succ failed =
        if subs.any (bulkMatches aid sid) = true then
          bulkGradeLoop aid score fb rest (bulkApplyOne aid sid score fb subs)
            (succ + 1) failed
        else bulkGradeLoop aid score fb rest subs succ (failed ++ [sid]) := rfl
    by_cases h : subs.any (bulkMatches aid sid) = true
    · rw [hunf, if_pos h, ih]
      have hfilt1 : (rest.filter fun sid' =>
          (bulkApplyOne aid sid score fb subs).any (bulkMatches aid sid')) =
          rest.filter fun sid' => subs.any (bulkMatches aid sid') := by
        apply List.filter_congr
        intro sid' _
        rw [any_bulkApplyOne]
      have hfilt2 : (rest.filter fun sid' =>
          !((bulkApplyOne aid sid score fb subs).any (bulkMatches aid sid'))) =
          rest.filter fun sid' => !(subs.any (bulkMatches aid sid')) := by
        apply List.filter_congr
        intro sid' _
        rw [any_bulkApplyOne]
      rw [hfilt1, hfilt2, List.filter_cons, List.filter_cons,
        if_pos (by simpa using h), if_neg (by simpa using h)]
      simp only [Prod.mk.injEq, List.length_cons]
      exact ⟨by omega, by trivial, by trivial⟩
    · have hfalse : subs.any (bulkMatches aid sid) = false := by
        simpa using h
      rw [hunf, if_neg h, ih]
      rw [List.filter_cons, List.filter_cons,
        if_neg (by simp [hfalse]), if_pos (by simp [hfalse])]
      simp only [Prod.mk.injEq]
      refine ⟨by trivial, by simp, ?_⟩
      rw [List.foldl_cons, bulkApplyOne_no_match aid sid score fb subs hfalse]

/-- The fold of the per-id UPDATEs acts row by row: it is the map of
`rowFold` over the table. -/
theorem foldl_bulkApply_as_map (aid : Nat) (score : Int) (fb : String) :
    ∀ (ids : List Nat) (subs : List SubmissionRow),
      ids.foldl (fun acc sid => bulkApplyOne aid sid score fb acc) subs =
        subs.map (rowFold aid score fb ids) := by
  intro ids
  induction ids with
  | nil =>
    intro subs
    have hmapid : subs.map (rowFold aid score fb []) = subs.map (fun s => s) := rfl
    rw [List.foldl_nil, hmapid, List.map_id']
  | cons sid rest ih =>
    intro subs
    rw [List.foldl_cons, ih (bulkApplyOne aid sid score fb subs)]
    unfold bulkApplyOne
    rw [List.map_map]
    rfl

/-- Row-by-row behaviour of the bulk-grade loop: ids are preserved, an
already graded row (with this score and feedback) stays graded, a deleted
row is untouched, and a non-deleted row of the assignment whose id is
listed ends up graded with the given score and feedback. -/
theorem rowFold_spec (aid : Nat) (score : Int) (fb : String) :
    ∀ (ids : List Nat) (s : SubmissionRow),
      (rowFold aid score fb ids s).submissionId = s.submissionId ∧
      (rowFold aid score fb ids s).assignmentId = s.assignmentId ∧
      (s.status = "graded" ∧ s.score = some score ∧ s.feedback = some fb →
        (rowFold aid score fb ids s).status = "graded" ∧
          (rowFold aid score fb ids s).score = some score ∧
          (rowFold aid score fb ids s).feedback = some fb) ∧
      (s.status = "deleted" → rowFold aid score fb ids s = s) ∧
      (s.status ≠ "deleted" → s.submissionId ∈ ids → s.assignmentId = aid →
        (rowFold aid score fb ids s).status = "graded" ∧
          (rowFold aid score fb ids s).score = some score ∧
          (rowFold aid score fb ids s).feedback = some fb) := by
  intro ids
  induction ids with
  | nil =>
    intro s
    refine ⟨rfl, rfl, fun h => ?_, fun _ => rfl, fun _ hmem => absurd hmem (by simp)⟩
    simpa [rowFold] using h
  | cons sid rest ih =>
    intro s
    have hstep : rowFold aid score fb (sid :: rest) s =
        rowFold aid score fb rest
          (if bulkMatches aid sid s then gradeRow score fb s else s) := rfl
    by_cases hm : bulkMatches aid sid s = true
    · have hs₁ : rowFold aid score fb (sid :: rest) s =
          rowFold aid score fb rest (gradeRow score fb s) := by
        rw [hstep, if_pos hm]
      have ihg := ih (gradeRow score fb s)
      have hgr : (gradeRow score fb s).status = "graded" ∧
          (gradeRow score fb s).score = some score ∧
          (gradeRow score fb s).feedback = some fb := ⟨rfl, rfl, rfl⟩
      have hgraded := ihg.2.2.1 hgr
      have hnotdel : ¬ s.status = "deleted" := by
        intro hdel
        have h' := hm
        unfold bulkMatches at h'
        simp only [Bool.and_eq_true] at h'
        rw [hdel] at h'
        simp at h'
      refine ⟨?_, ?_, fun _ => hs₁ ▸ hgraded, fun hdel => absurd hdel hnotdel,
        fun _ _ _ => hs₁ ▸ hgraded⟩
      · rw [hs₁, ihg.1]; rfl
      · rw [hs₁, ihg.2.1]; rfl
    · have hs₁ : rowFold aid score fb (sid :: rest) s =
          rowFold aid score fb rest s := by
        rw [hstep, if_neg hm]
      have ihs := ih s
      refine ⟨hs₁ ▸ ihs.1, hs₁ ▸ ihs.2.1, fun h => hs₁ ▸ ihs.2.2.1 h,
        fun hdel => hs₁ ▸ ihs.2.2.2.1 hdel, ?_⟩
      intro hnd hmem haid
      rcases List.mem_cons.mp hmem with heq | hrest
      · exfalso
        apply hm
        unfold bulkMatches
        simp only [Bool.and_eq_true, beq_iff_eq, bne_iff_ne, ne_eq]
        exact ⟨⟨heq, haid⟩, hnd⟩
      · exact hs₁ ▸ ihs.2.2.2.2 hnd hrest haid

/-- Counterexample for C2: the second registered BulkGradeSubmissionsHandler,
run on exactly the scenario input (submission ids 10, 11 and 999 of which
999 matches nothing), answers 200 with only a message: its response carries
no `success_count` and no `failed_ids` at all. -/
theorem bulk_grade_plain_reports_no_counts :
    (bulkGradePlain exDb 1 1 [10, 11, 999] 95 "Well done").1.status = 200 ∧
      (bulkGradePlain exDb 1 1 [10, 11, 999] 95 "Well done").1.successCount = none ∧
      (bulkGradePlain exDb 1 1 [10, 11, 999] 95 "Well done").1.failedIds = none := by
  decide

/-- Claim C2 (amended): the per-item-reporting BulkGradeSubmissionsHandler
applies the one score/feedback pair to every listed submission of the
assignment that is not deleted, collects each listed id matching no such
submission into `failed_ids` without aborting the batch, and reports
`success_count` equal to the number of listed ids that matched; the other
registered bulk-grade variant performs the same updates but reports no
per-item outcome. -/
theorem bulk_grade_reporting_per_item (db : DB) (tuid aid : Nat)
    (ids : List Nat) (score : Int) (fb : String) (maxPts : Int)
    (hids : ids ≠ [])
    (hown : findOwnedAssignmentMaxPoints db aid tuid = some maxPts)
    (h0 : 0 ≤ score) (hmaxsc : score ≤ maxPts) :
    (bulkGradeReporting db tuid aid ids score fb).1.status = 200 ∧
      (bulkGradeReporting db tuid aid ids score fb).1.successCount =
        some (ids.filter fun sid =>
          db.submissions.any (bulkMatches aid sid)).length ∧
      (bulkGradeReporting db tuid aid ids score fb).1.failedIds =
        some (ids.filter fun sid => !(db.submissions.any (bulkMatches aid sid))) ∧
      ∀ s ∈ (bulkGradeReporting db tuid aid ids score fb).2.submissions,
        s.submissionId ∈ ids → s.assignmentId = aid → s.status ≠ "deleted" →
          s.status = "graded" ∧ s.score = some score ∧ s.feedback = some fb := by
  have hempty : ids.isEmpty = false := by
    cases ids with
    | nil => exact absurd rfl hids
    | cons x xs => rfl
  have hcond : (score < 0 || maxPts < score) = false := by
    simp only [Bool.or_eq_false_iff, decide_eq_false_iff_not, not_lt]
    omega
  have hred : bulkGradeReporting db tuid aid ids score fb =
      (⟨200, "Bulk grading completed",
          some (bulkGradeLoop aid score fb ids db.submissions 0 []).1,
          some (bulkGradeLoop aid score fb ids db.submissions 0 []).2.1⟩,
        { db with submissions := (bulkGradeLoop aid score fb ids
            db.submissions 0 []).2.2 }) := by
    unfold bulkGradeReporting
    rw [hempty]
    simp only [hown, hcond, Bool.false_eq_true, if_false]
  have hsubs2 : (bulkGradeLoop aid score fb ids db.submissions 0 []).2.2 =
      db.submissions.map (rowFold aid score fb ids) := by
    rw [bulkGradeLoop_spec]
    exact foldl_bulkApply_as_map aid score fb ids db.submissions
  rw [hred]
  refine ⟨rfl, by rw [bulkGradeLoop_spec]; simp, by rw [bulkGradeLoop_spec]; simp, ?_⟩
  intro s hs hsid haid hnd
  have hs' : s ∈ (bulkGradeLoop aid score fb ids db.submissions 0 []).2.2 := hs
  rw [hsubs2, List.mem_map] at hs'
  obtain ⟨t, _, rfl⟩ := hs'
  have hspec := rowFold_spec aid score fb ids t
  have htnd : t.status ≠ "deleted" := by
    intro hdel
    exact hnd (by rw [hspec.2.2.2.1 hdel, hdel])
  exact hspec.2.2.2.2 htnd (hspec.1 ▸ hsid) (hspec.2.1 ▸ haid)

/-- Witness for C2 (Scenario C): bulk-grading submissions 10, 11 and 999 of
assignment 1 in `exDb` reports success count 2 and failed ids [999], and
submissions 10 and 11 end in status `graded`. -/
theorem bulk_grade_reporting_per_item_witness :
    (bulkGradeReporting exDb 1 1 [10, 11, 999] 95 "Well done").1.successCount =
        some 2 ∧
      (bulkGradeReporting exDb 1 1 [10, 11, 999] 95 "Well done").1.failedIds =
        some [999] ∧
      ∀ s ∈ (bulkGradeReporting exDb 1 1 [10, 11, 999] 95 "Well done").2.submissions,
        s.status = "graded" := by
  have h := bulk_grade_reporting_per_item exDb 1 1 [10, 11, 999] 95 "Well done"
    100 (by decide) (by decide) (by decide) (by decide)
  refine ⟨?_, ?_, ?_⟩
  · rw [h.2.1]; decide
  · rw [h.2.2.1]; decide
  · intro s hs
    refine (h.2.2.2 s hs ?_ ?_ ?_).1 <;> revert hs <;> revert s <;> decide

end EduSync
